import Mathlib

/-!
Verification of the `Entity` base class of nontypeable/hse-game
(`src/include/core/Entity.hpp`).

The class is mechanical glue over SFML 3: `getGlobalBounds` delegates to
`sf::Transform::transformRect`, `intersects` to `sf::FloatRect::findIntersection`,
`contains` to `sf::FloatRect::contains`, and the finalized `draw` gate composes
`sf::Transformable::getTransform()` into the incoming `sf::RenderStates`.
We embed the relevant SFML 3 library functions (from `Rect.inl` / `Transform.inl`)
and the `Entity` members over the rationals: coordinates are modelled as ℚ
rather than IEEE `float`, which is the standard exact-arithmetic reading of the
geometric contract.

`sf::Transformable` is modelled by the affine matrix its `getTransform()`
returns (entries `a00 a01 a02 / a10 a11 a12` of the 3×3 matrix whose last row
is `0 0 1`); position/rotation/scale/origin all produce such matrices, and
`Entity` only ever observes the matrix.
-/

/-- The type `sf::Vector2f`: a 2-D point/vector. -/
structure Vec2 where
  x : ℚ
  y : ℚ
  deriving DecidableEq, Repr

/-- The type `sf::FloatRect` (SFML 3): a rectangle given by `position` and `size`.
Negative sizes are allowed and handled by the queries below, as in SFML. -/
structure Rect where
  position : Vec2
  size : Vec2
  deriving DecidableEq, Repr

/-- The type `sf::Transform` restricted to the affine part: the 3×3 matrix
`(a00 a01 a02 / a10 a11 a12 / 0 0 1)`. Every transform produced by
`sf::Transformable::getTransform()` has this shape. -/
structure Transform where
  a00 : ℚ
  a01 : ℚ
  a02 : ℚ
  a10 : ℚ
  a11 : ℚ
  a12 : ℚ
  deriving DecidableEq, Repr

/-- The constant `sf::Transform::Identity`. -/
def Transform.identity : Transform := ⟨1, 0, 0, 0, 1, 0⟩

/-- The function `sf::Transform::transformPoint`:
`{m[0]*x + m[4]*y + m[12], m[1]*x + m[5]*y + m[13]}`. -/
def Transform.transformPoint (t : Transform) (p : Vec2) : Vec2 :=
  ⟨t.a00 * p.x + t.a01 * p.y + t.a02, t.a10 * p.x + t.a11 * p.y + t.a12⟩

/-- The function `sf::Transform::combine` (also `operator*` / `operator*=`): the matrix
product `this * right`, restricted to the affine rows. -/
def Transform.combine (t u : Transform) : Transform :=
  ⟨t.a00 * u.a00 + t.a01 * u.a10,
   t.a00 * u.a01 + t.a01 * u.a11,
   t.a00 * u.a02 + t.a01 * u.a12 + t.a02,
   t.a10 * u.a00 + t.a11 * u.a10,
   t.a10 * u.a01 + t.a11 * u.a11,
   t.a10 * u.a02 + t.a11 * u.a12 + t.a12⟩

/-- The function `sf::Transform::transformRect`: transform the four corners of the
rectangle, then take their axis-aligned bounding rectangle with a running
min/max starting from the first corner, exactly as the loop in
`Transform.inl` does. -/
def Transform.transformRect (t : Transform) (r : Rect) : Rect :=
  let p0 := t.transformPoint r.position
  let p1 := t.transformPoint ⟨r.position.x, r.position.y + r.size.y⟩
  let p2 := t.transformPoint ⟨r.position.x + r.size.x, r.position.y⟩
  let p3 := t.transformPoint ⟨r.position.x + r.size.x, r.position.y + r.size.y⟩
  let left := min (min (min p0.x p1.x) p2.x) p3.x
  let top := min (min (min p0.y p1.y) p2.y) p3.y
  let right := max (max (max p0.x p1.x) p2.x) p3.x
  let bottom := max (max (max p0.y p1.y) p2.y) p3.y
  ⟨⟨left, top⟩, ⟨right - left, bottom - top⟩⟩

/-- The function `sf::Rect<T>::contains(Vector2<T>)` from `Rect.inl`: normalize the
rectangle with min/max (negative sizes allowed), then test
`x >= minX && x < maxX && y >= minY && y < maxY`. -/
def Rect.contains (r : Rect) (point : Vec2) : Bool :=
  let minX := min r.position.x (r.position.x + r.size.x)
  let maxX := max r.position.x (r.position.x + r.size.x)
  let minY := min r.position.y (r.position.y + r.size.y)
  let maxY := max r.position.y (r.position.y + r.size.y)
  minX ≤ point.x && point.x < maxX && minY ≤ point.y && point.y < maxY

/-- The function `sf::Rect<T>::findIntersection` from `Rect.inl`: normalize both
rectangles, intersect the intervals, and return the intersection rectangle
only when it has strictly positive area (`interLeft < interRight` and
`interTop < interBottom`). -/
def Rect.findIntersection (r1 rectangle : Rect) : Option Rect :=
  let r1MinX := min r1.position.x (r1.position.x + r1.size.x)
  let r1MaxX := max r1.position.x (r1.position.x + r1.size.x)
  let r1MinY := min r1.position.y (r1.position.y + r1.size.y)
  let r1MaxY := max r1.position.y (r1.position.y + r1.size.y)
  let r2MinX := min rectangle.position.x (rectangle.position.x + rectangle.size.x)
  let r2MaxX := max rectangle.position.x (rectangle.position.x + rectangle.size.x)
  let r2MinY := min rectangle.position.y (rectangle.position.y + rectangle.size.y)
  let r2MaxY := max rectangle.position.y (rectangle.position.y + rectangle.size.y)
  let interLeft := max r1MinX r2MinX
  let interTop := max r1MinY r2MinY
  let interRight := min r1MaxX r2MaxX
  let interBottom := min r1MaxY r2MaxY
  if interLeft < interRight ∧ interTop < interBottom then
    some ⟨⟨interLeft, interTop⟩, ⟨interRight - interLeft, interBottom - interTop⟩⟩
  else
    none

/-- The `Entity` state: the three lifecycle flags with their default member
initializers (`alive_ = true`, `active_ = true`, `visible_ = true`), the
`sf::Transformable` state abstracted by its `getTransform()` matrix, and the
subclass-supplied `getLocalBounds()` rectangle (computed on demand by the
subclass; we model it as data since the base class only reads it). -/
structure Entity where
  alive_ : Bool := true
  active_ : Bool := true
  visible_ : Bool := true
  transform : Transform := Transform.identity
  localBounds : Rect
  deriving DecidableEq, Repr

/-- The accessor `sf::Transformable::getTransform()` as seen by `Entity`. -/
def Entity.getTransform (e : Entity) : Transform := e.transform

/-- The member `Entity::getLocalBounds()` (abstract in the source; the base class only
calls it). -/
def Entity.getLocalBounds (e : Entity) : Rect := e.localBounds

/-- The member `Entity::getGlobalBounds()`:
`getTransform().transformRect(getLocalBounds())`. -/
def Entity.getGlobalBounds (e : Entity) : Rect :=
  e.getTransform.transformRect e.getLocalBounds

/-- The member `Entity::isAlive()`. -/
def Entity.isAlive (e : Entity) : Bool := e.alive_

/-- The member `Entity::markForRemoval()`: sets `alive_ = false`. -/
def Entity.markForRemoval (e : Entity) : Entity := { e with alive_ := false }

/-- The member `Entity::isActive()`. -/
def Entity.isActive (e : Entity) : Bool := e.active_

/-- The member `Entity::setActive(bool)`. -/
def Entity.setActive (e : Entity) (active : Bool) : Entity :=
  { e with active_ := active }

/-- The member `Entity::isVisible()`. -/
def Entity.isVisible (e : Entity) : Bool := e.visible_

/-- The member `Entity::setVisible(bool)`. -/
def Entity.setVisible (e : Entity) (visible : Bool) : Entity :=
  { e with visible_ := visible }

/-- The member `Entity::intersects(other)`:
`getGlobalBounds().findIntersection(other.getGlobalBounds()).has_value()`. -/
def Entity.intersects (e other : Entity) : Bool :=
  (e.getGlobalBounds.findIntersection other.getGlobalBounds).isSome

/-- The member `Entity::contains(point)`: `getGlobalBounds().contains(point)`. -/
def Entity.containsPoint (e : Entity) (point : Vec2) : Bool :=
  e.getGlobalBounds.contains point

/-- The type `sf::RenderStates`, reduced to its `transform` field: the finalized
`draw` only touches `states.transform`, and the claims only speak about the
transform; the remaining fields (blend mode, texture, shader) are passed
through unchanged by the source and are omitted here. -/
structure RenderStates where
  transform : Transform
  deriving DecidableEq, Repr

/-- The finalized `Entity::draw(target, states)`. Its observable behaviour is
the sequence of `onDraw` invocations it performs, which we return as the list
of render states passed to `onDraw`: the empty list when the
`!visible_ || !alive_` gate fires, otherwise the single invocation with
`states.transform *= getTransform()` composed in. -/
def Entity.draw (e : Entity) (states : RenderStates) : List RenderStates :=
  if !e.visible_ || !e.alive_ then
    []
  else
    [{ states with transform := states.transform.combine e.getTransform }]

/-- The public operations of `Entity` that the external owner can invoke
(besides the abstract `update`, which is subclass-defined). -/
inductive Op where
  | markForRemoval
  | setActive (active : Bool)
  | setVisible (visible : Bool)
  | isAlive
  | isActive
  | isVisible
  | getGlobalBounds
  | intersects (other : Entity)
  | containsPoint (point : Vec2)
  deriving Repr

/-- Effect of one public operation on the entity state. The three mutators
update their flag; every other member is `const` in the source and leaves the
entity unchanged. -/
def Op.applyTo (e : Entity) : Op → Entity
  | .markForRemoval => e.markForRemoval
  | .setActive b => e.setActive b
  | .setVisible b => e.setVisible b
  | .isAlive => e
  | .isActive => e
  | .isVisible => e
  | .getGlobalBounds => e
  | .intersects _ => e
  | .containsPoint _ => e

/-- Run a sequence of public operations. -/
def Entity.runOps (e : Entity) (ops : List Op) : Entity :=
  ops.foldl Op.applyTo e

/-! ### Spec-side definitions -/

/-- Normalized left edge of a rectangle (negative sizes allowed). -/
def Rect.minX (r : Rect) : ℚ := min r.position.x (r.position.x + r.size.x)

/-- Normalized right edge of a rectangle. -/
def Rect.maxX (r : Rect) : ℚ := max r.position.x (r.position.x + r.size.x)

/-- Normalized top edge of a rectangle. -/
def Rect.minY (r : Rect) : ℚ := min r.position.y (r.position.y + r.size.y)

/-- Normalized bottom edge of a rectangle. -/
def Rect.maxY (r : Rect) : ℚ := max r.position.y (r.position.y + r.size.y)

/-- Membership of a point in a rectangle under the half-open convention the
implementation chose for `contains`: the left/top edges are inside, the
right/bottom edges are outside. Written from the spec's words for `contains`
("point lies within the rectangle returned by getGlobalBounds, under the
chosen boundary-inclusion convention"), to be compared with the source's
`Rect.contains`. -/
def Rect.memHalfOpen (r : Rect) (p : Vec2) : Prop :=
  r.minX ≤ p.x ∧ p.x < r.maxX ∧ r.minY ≤ p.y ∧ p.y < r.maxY

/-- Written from the spec's words for `getGlobalBounds` ("the rectangle
obtained by mapping getLocalBounds() through the entity's current transform",
i.e. the axis-aligned bounding rectangle of the images of the local
rectangle's four corners), with the corners enumerated and grouped
differently from the library loop, to be compared with the source's
`Transform.transformRect`. -/
def specMapRect (t : Transform) (r : Rect) : Rect :=
  let q0 := t.transformPoint r.position
  let q1 := t.transformPoint ⟨r.position.x + r.size.x, r.position.y⟩
  let q2 := t.transformPoint ⟨r.position.x, r.position.y + r.size.y⟩
  let q3 := t.transformPoint ⟨r.position.x + r.size.x, r.position.y + r.size.y⟩
  let left := min (min q0.x q1.x) (min q2.x q3.x)
  let top := min (min q0.y q1.y) (min q2.y q3.y)
  let right := max (max q0.x q1.x) (max q2.x q3.x)
  let bottom := max (max q0.y q1.y) (max q2.y q3.y)
  ⟨⟨left, top⟩, ⟨right - left, bottom - top⟩⟩

/-- A pure translation matrix, as produced by `sf::Transform::translate`
applied to the identity. -/
def Transform.translation (x y : ℚ) : Transform := ⟨1, 0, x, 0, 1, y⟩

/-! ### Concrete instances used by witnesses and counterexamples -/

/-- A default-flag entity with unit local bounds, used by the draw-gate
witness. -/
def c1Visible : Entity := { localBounds := ⟨⟨0, 0⟩, ⟨1, 1⟩⟩ }

/-- The same entity with `visible_ = false`. -/
def c1Hidden : Entity := { c1Visible with visible_ := false }

/-- An identity render state. -/
def c1States : RenderStates := ⟨Transform.identity⟩

/-- An entity with identity transform and local bounds (0,0,10,10); its
global bounds are (0,0,10,10). -/
def entA : Entity := { localBounds := ⟨⟨0, 0⟩, ⟨10, 10⟩⟩ }

/-- An entity whose global bounds (10,0,10,10) touch `entA`'s along the
shared edge x = 10 with zero-area overlap. -/
def entTouch : Entity := { localBounds := ⟨⟨10, 0⟩, ⟨10, 10⟩⟩ }

/-- The worked example's first entity: local bounds (0,0,10,10) and
transform translate(5,5). -/
def entEx : Entity :=
  { localBounds := ⟨⟨0, 0⟩, ⟨10, 10⟩⟩, transform := Transform.translation 5 5 }

/-- The worked example's second entity, with global bounds (10,10,10,10). -/
def entEx2 : Entity := { localBounds := ⟨⟨10, 10⟩, ⟨10, 10⟩⟩ }

/-- The worked example's third entity, with global bounds (20,20,5,5). -/
def entEx3 : Entity := { localBounds := ⟨⟨20, 20⟩, ⟨5, 5⟩⟩ }

/-- An entity used by the `contains` witness: global bounds (5,5,10,10). -/
def c5Ent : Entity :=
  { localBounds := ⟨⟨0, 0⟩, ⟨10, 10⟩⟩, transform := Transform.translation 5 5 }

/-- A deactivated but visible and alive entity, used by the active-flag draw
witness. -/
def c10Ent : Entity := { localBounds := ⟨⟨0, 0⟩, ⟨1, 1⟩⟩, active_ := false }

/-! ### Helper lemmas -/

/-- The source's `contains` agrees with half-open membership. -/
theorem Rect.contains_eq_true_iff (r : Rect) (p : Vec2) :
    r.contains p = true ↔ r.memHalfOpen p := by
  simp [Rect.contains, Rect.memHalfOpen, Rect.minX, Rect.maxX, Rect.minY, Rect.maxY,
    Bool.and_eq_true, decide_eq_true_iff, and_assoc]

/-- The source's `findIntersection` succeeds exactly when the normalized
intervals overlap with strictly positive length on both axes. -/
theorem Rect.findIntersection_isSome_iff (r1 r2 : Rect) :
    (r1.findIntersection r2).isSome = true ↔
      (max r1.minX r2.minX < min r1.maxX r2.maxX ∧
       max r1.minY r2.minY < min r1.maxY r2.maxY) := by
  simp only [Rect.findIntersection, Rect.minX, Rect.maxX, Rect.minY, Rect.maxY]
  split <;> simp_all

/-- A dead entity stays dead under any sequence of public operations. -/
theorem alive_false_stable (ops : List Op) :
    ∀ e : Entity, e.alive_ = false → (e.runOps ops).alive_ = false := by
  induction ops with
  | nil => exact fun _ h => h
  | cons op rest ih =>
    intro e h
    refine ih (Op.applyTo e op) ?_
    cases op <;>
      simp [Op.applyTo, Entity.markForRemoval, Entity.setActive, Entity.setVisible, h]

/-! ### Claim theorems -/

/-- C1: for every entity and incoming render state, the finalized draw entry
point invokes `onDraw` (and hence the render target) zero times when
`visible = false` or `alive = false`, and otherwise exactly once, with a
render state whose transform is the incoming transform composed with the
entity's own transform. -/
theorem draw_gate_spec (e : Entity) (s : RenderStates) :
    ((e.visible_ = false ∨ e.alive_ = false) → e.draw s = []) ∧
    (e.visible_ = true → e.alive_ = true →
      e.draw s = [{ transform := s.transform.combine e.getTransform }]) := by
  constructor
  · rintro (h | h) <;> simp [Entity.draw, h]
  · intro hv ha
    simp [Entity.draw, hv, ha]

/-- Witness for C1 at concrete inputs: the default-flag entity is drawn once
with the composed transform; the invisible entity is not drawn. -/
theorem draw_gate_spec_witness :
    (c1Visible.visible_ = true ∧ c1Visible.alive_ = true ∧
      c1Visible.draw c1States =
        [{ transform := c1States.transform.combine c1Visible.getTransform }]) ∧
    (c1Hidden.visible_ = false ∧ c1Hidden.draw c1States = []) :=
  ⟨⟨rfl, rfl, (draw_gate_spec c1Visible c1States).2 rfl rfl⟩,
   ⟨rfl, (draw_gate_spec c1Hidden c1States).1 (Or.inl rfl)⟩⟩

/-- C2: `markForRemoval` is a one-way latch — after it, `isAlive` returns
false after every subsequent sequence of public operations. -/
theorem markForRemoval_latch (e : Entity) (ops : List Op) :
    (e.markForRemoval.runOps ops).isAlive = false :=
  alive_false_stable ops e.markForRemoval rfl

/-- C6: `intersects` is symmetric. -/
theorem intersects_symm (a b : Entity) : a.intersects b = b.intersects a := by
  have h1 := Rect.findIntersection_isSome_iff a.getGlobalBounds b.getGlobalBounds
  have h2 := Rect.findIntersection_isSome_iff b.getGlobalBounds a.getGlobalBounds
  have hc : (max (Rect.minX a.getGlobalBounds) (Rect.minX b.getGlobalBounds) <
        min (Rect.maxX a.getGlobalBounds) (Rect.maxX b.getGlobalBounds) ∧
      max (Rect.minY a.getGlobalBounds) (Rect.minY b.getGlobalBounds) <
        min (Rect.maxY a.getGlobalBounds) (Rect.maxY b.getGlobalBounds)) ↔
      (max (Rect.minX b.getGlobalBounds) (Rect.minX a.getGlobalBounds) <
        min (Rect.maxX b.getGlobalBounds) (Rect.maxX a.getGlobalBounds) ∧
      max (Rect.minY b.getGlobalBounds) (Rect.minY a.getGlobalBounds) <
        min (Rect.maxY b.getGlobalBounds) (Rect.maxY a.getGlobalBounds)) := by
    rw [max_comm (Rect.minX a.getGlobalBounds), min_comm (Rect.maxX a.getGlobalBounds),
      max_comm (Rect.minY a.getGlobalBounds), min_comm (Rect.maxY a.getGlobalBounds)]
  exact Bool.eq_iff_iff.mpr (h1.trans (hc.trans h2.symm))

/-- C5: `contains(p)` is true iff `p` lies within the rectangle returned by
`getGlobalBounds()` under the implementation's (half-open) boundary
convention. -/
theorem contains_iff_memHalfOpen (e : Entity) (p : Vec2) :
    e.containsPoint p = true ↔ (e.getGlobalBounds).memHalfOpen p :=
  Rect.contains_eq_true_iff e.getGlobalBounds p

/-- Witness for C5 at a concrete input: the point (7,8) is inside the
global bounds (5,5,10,10). -/
theorem contains_iff_memHalfOpen_witness : c5Ent.containsPoint ⟨7, 8⟩ = true :=
  (contains_iff_memHalfOpen c5Ent ⟨7, 8⟩).mpr
    (by norm_num [c5Ent, Rect.memHalfOpen, Rect.minX, Rect.maxX, Rect.minY, Rect.maxY,
      Entity.getGlobalBounds, Entity.getTransform, Entity.getLocalBounds,
      Transform.transformRect, Transform.transformPoint, Transform.translation])

/-- C3: `getGlobalBounds` returns exactly the axis-aligned bounding rectangle
of the local rectangle's corners mapped through the current transform, and it
has no side effects: the entity (flags and transform included) is unchanged
by the query. -/
theorem getGlobalBounds_spec (e : Entity) :
    e.getGlobalBounds = specMapRect e.getTransform e.getLocalBounds ∧
    Op.applyTo e Op.getGlobalBounds = e := by
  refine ⟨?_, rfl⟩
  simp only [Entity.getGlobalBounds, Transform.transformRect, specMapRect]
  simp [Rect.mk.injEq, Vec2.mk.injEq, min_assoc, min_comm, min_left_comm,
    max_assoc, max_comm, max_left_comm]

/-- C9: a freshly constructed entity (default member initializers, any
subclass-supplied local bounds) is alive, active and visible. -/
theorem fresh_entity_flags (lb : Rect) :
    Entity.isAlive { localBounds := lb } = true ∧
    Entity.isActive { localBounds := lb } = true ∧
    Entity.isVisible { localBounds := lb } = true :=
  ⟨rfl, rfl, rfl⟩

/-- C8: `setActive` changes only the active flag, `setVisible` changes only
the visible flag, both leave the transform (and local bounds) unchanged, and
every query leaves the whole entity unchanged. -/
theorem flags_independent (e : Entity) (b : Bool) (other : Entity) (p : Vec2) :
    ((e.setActive b).active_ = b ∧ (e.setActive b).alive_ = e.alive_ ∧
      (e.setActive b).visible_ = e.visible_ ∧
      (e.setActive b).transform = e.transform ∧
      (e.setActive b).localBounds = e.localBounds) ∧
    ((e.setVisible b).visible_ = b ∧ (e.setVisible b).alive_ = e.alive_ ∧
      (e.setVisible b).active_ = e.active_ ∧
      (e.setVisible b).transform = e.transform ∧
      (e.setVisible b).localBounds = e.localBounds) ∧
    (Op.applyTo e Op.isAlive = e ∧ Op.applyTo e Op.isActive = e ∧
      Op.applyTo e Op.isVisible = e ∧ Op.applyTo e Op.getGlobalBounds = e ∧
      Op.applyTo e (Op.intersects other) = e ∧
      Op.applyTo e (Op.containsPoint p) = e) :=
  ⟨⟨rfl, rfl, rfl, rfl, rfl⟩, ⟨rfl, rfl, rfl, rfl, rfl⟩, ⟨rfl, rfl, rfl, rfl, rfl, rfl⟩⟩

/-- C10: the draw gate does not consult the active flag — `setActive` never
changes what `draw` does, and a visible, alive entity is drawn exactly once
even when `active = false`. -/
theorem draw_ignores_active (e : Entity) (s : RenderStates) (b : Bool) :
    (e.setActive b).draw s = e.draw s ∧
    (e.visible_ = true → e.alive_ = true → e.active_ = false →
      e.draw s = [{ transform := s.transform.combine e.getTransform }]) := by
  constructor
  · simp [Entity.draw, Entity.setActive, Entity.getTransform]
  · intro hv ha _
    simp [Entity.draw, hv, ha]

/-- Witness for C10 at a concrete input: the deactivated entity is still
drawn once with the composed transform. -/
theorem draw_ignores_active_witness :
    c10Ent.visible_ = true ∧ c10Ent.alive_ = true ∧ c10Ent.active_ = false ∧
    c10Ent.draw c1States =
      [{ transform := c1States.transform.combine c10Ent.getTransform }] :=
  ⟨rfl, rfl, rfl, (draw_ignores_active c10Ent c1States false).2 rfl rfl rfl⟩

/-- C4 counterexample: there is no single boundary-inclusion convention.
`entA` (global bounds (0,0,10,10)) and `entTouch` (global bounds
(10,0,10,10)) touch exactly along the edge x = 10, yet `intersects` reports
false — refuting the "boundary contact is inside" reading; the point (0,5)
lies on the boundary of `entA`'s global bounds (its left edge), yet
`contains` reports true — refuting the "boundary contact is outside"
reading; and the point (10,5) on the right edge is not contained, so even
`contains` alone is not uniform across boundary points. -/
theorem boundary_convention_cex :
    Rect.maxX entA.getGlobalBounds = Rect.minX entTouch.getGlobalBounds ∧
    entA.intersects entTouch = false ∧
    (0 : ℚ) = Rect.minX entA.getGlobalBounds ∧
    Rect.minY entA.getGlobalBounds < 5 ∧ (5 : ℚ) < Rect.maxY entA.getGlobalBounds ∧
    entA.containsPoint ⟨0, 5⟩ = true ∧
    (10 : ℚ) = Rect.maxX entA.getGlobalBounds ∧
    entA.containsPoint ⟨10, 5⟩ = false := by
  norm_num [entA, entTouch, Entity.intersects, Entity.containsPoint,
    Entity.getGlobalBounds, Entity.getTransform, Entity.getLocalBounds,
    Transform.transformRect, Transform.transformPoint, Transform.identity,
    Rect.findIntersection, Rect.contains,
    Rect.minX, Rect.maxX, Rect.minY, Rect.maxY]

/-- C4 amended: the two queries use two distinct but individually consistent
conventions. `intersects` is strict (boundary contact is outside): it is true
iff the normalized bounds overlap with strictly positive extent on both
axes. `contains` is half-open: the left/top edges are inside and the
right/bottom edges are outside. -/
theorem boundary_convention_amended (a b e : Entity) (p : Vec2) :
    (a.intersects b = true ↔
      ((Rect.minX a.getGlobalBounds < Rect.maxX a.getGlobalBounds ∧
        Rect.minX a.getGlobalBounds < Rect.maxX b.getGlobalBounds ∧
        Rect.minX b.getGlobalBounds < Rect.maxX a.getGlobalBounds ∧
        Rect.minX b.getGlobalBounds < Rect.maxX b.getGlobalBounds) ∧
       (Rect.minY a.getGlobalBounds < Rect.maxY a.getGlobalBounds ∧
        Rect.minY a.getGlobalBounds < Rect.maxY b.getGlobalBounds ∧
        Rect.minY b.getGlobalBounds < Rect.maxY a.getGlobalBounds ∧
        Rect.minY b.getGlobalBounds < Rect.maxY b.getGlobalBounds))) ∧
    (e.containsPoint p = true ↔ (e.getGlobalBounds).memHalfOpen p) := by
  constructor
  · rw [Entity.intersects, Rect.findIntersection_isSome_iff]
    simp only [max_lt_iff, lt_min_iff]
    tauto
  · exact Rect.contains_eq_true_iff e.getGlobalBounds p

/-- Witness for C4's amended statement at concrete inputs: the touching pair
does not intersect, and the left-edge boundary point is contained. -/
theorem boundary_convention_amended_witness :
    entA.intersects entTouch = false ∧ entA.containsPoint ⟨0, 5⟩ = true := by
  have h := boundary_convention_amended entA entTouch entA ⟨0, 5⟩
  constructor
  · rw [Bool.eq_false_iff, Ne, h.1]
    norm_num [entA, entTouch, Entity.getGlobalBounds, Entity.getTransform,
      Entity.getLocalBounds, Transform.transformRect, Transform.transformPoint,
      Transform.identity, Rect.minX, Rect.maxX, Rect.minY, Rect.maxY]
  · rw [h.2]
    norm_num [entA, Rect.memHalfOpen, Entity.getGlobalBounds, Entity.getTransform,
      Entity.getLocalBounds, Transform.transformRect, Transform.transformPoint,
      Transform.identity, Rect.minX, Rect.maxX, Rect.minY, Rect.maxY]

/-- C7: the worked example. The entity with local bounds (0,0,10,10) and
transform translate(5,5) has global bounds (5,5,10,10); it intersects the
entity with global bounds (10,10,10,10), the overlap region being the
rectangle from (10,10) of size (5,5); and it does not intersect the entity
with global bounds (20,20,5,5). -/
theorem worked_example :
    entEx.getGlobalBounds = ⟨⟨5, 5⟩, ⟨10, 10⟩⟩ ∧
    entEx2.getGlobalBounds = ⟨⟨10, 10⟩, ⟨10, 10⟩⟩ ∧
    entEx3.getGlobalBounds = ⟨⟨20, 20⟩, ⟨5, 5⟩⟩ ∧
    entEx.intersects entEx2 = true ∧
    entEx.getGlobalBounds.findIntersection entEx2.getGlobalBounds =
      some ⟨⟨10, 10⟩, ⟨5, 5⟩⟩ ∧
    entEx.intersects entEx3 = false := by
  norm_num [entEx, entEx2, entEx3, Entity.intersects, Entity.getGlobalBounds,
    Entity.getTransform, Entity.getLocalBounds, Transform.transformRect,
    Transform.transformPoint, Transform.identity, Transform.translation,
    Rect.findIntersection]
